import Mathlib

/-
Verification of the order/trade core of ib_insync (src/ib_insync/order.py).

Python floats are modelled as rationals (ℚ), Python ints as ℤ, Python
strings as String.  Mutation is modelled by explicit state passing:
a method that mutates `self` becomes a function returning the updated
record.  Python object identity is modelled by pairing a record value
with a numeric identity tag (`OrderInst`, `ConditionInst`).
A fallible lookup (dict indexing that can raise KeyError) returns Option.
-/

namespace IbInsync

/-- Modelled from the spec: `UNSET_DOUBLE` is imported from util.py, which is
not part of the given sources.  The spec describes it as a reserved numeric
sentinel meaning "field intentionally unset", distinct from zero; upstream it
is the largest IEEE double.  Its exact value is irrelevant to the claims
beyond being a fixed nonzero constant. -/
def UNSET_DOUBLE : ℚ := 17976931348623157 * 10 ^ 292

/-- Modelled from the spec: `UNSET_INTEGER` from util.py (not in the given
sources), the reserved "unset" sentinel for integer fields. -/
def UNSET_INTEGER : ℤ := 2 ^ 31 - 1

/-- PriceCondition: fields and defaults as declared in order.py. -/
structure PriceCondition where
  condType : ℤ := 1
  conjunction : String := "a"
  isMore : Bool := true
  price : ℚ := 0
  conId : ℤ := 0
  exch : String := ""
  triggerMethod : ℤ := 0
  deriving Repr, DecidableEq

/-- TimeCondition: fields and defaults as declared in order.py. -/
structure TimeCondition where
  condType : ℤ := 3
  conjunction : String := "a"
  isMore : Bool := true
  time : String := ""
  deriving Repr, DecidableEq

/-- MarginCondition: fields and defaults as declared in order.py. -/
structure MarginCondition where
  condType : ℤ := 4
  conjunction : String := "a"
  isMore : Bool := true
  percent : ℤ := 0
  deriving Repr, DecidableEq

/-- ExecutionCondition: fields and defaults as declared in order.py. -/
structure ExecutionCondition where
  condType : ℤ := 5
  conjunction : String := "a"
  secType : String := ""
  exch : String := ""
  symbol : String := ""
  deriving Repr, DecidableEq

/-- VolumeCondition: fields and defaults as declared in order.py. -/
structure VolumeCondition where
  condType : ℤ := 6
  conjunction : String := "a"
  isMore : Bool := true
  volume : ℤ := 0
  conId : ℤ := 0
  exch : String := ""
  deriving Repr, DecidableEq

/-- PercentChangeCondition: fields and defaults as declared in order.py. -/
structure PercentChangeCondition where
  condType : ℤ := 7
  conjunction : String := "a"
  isMore : Bool := true
  changePercent : ℚ := 0
  conId : ℤ := 0
  exch : String := ""
  deriving Repr, DecidableEq

/-- The closed family of concrete OrderCondition variants, as a sum type. -/
inductive OrderCondition where
  | price (c : PriceCondition)
  | time (c : TimeCondition)
  | margin (c : MarginCondition)
  | execution (c : ExecutionCondition)
  | volume (c : VolumeCondition)
  | percentChange (c : PercentChangeCondition)
  deriving Repr, DecidableEq

/-- The six concrete condition variant types, used as the codomain of the
discriminant lookup (in Python `createClass` returns the class object
itself; here the class is named by this tag). -/
inductive CondClass where
  | price
  | time
  | margin
  | execution
  | volume
  | percentChange
  deriving Repr, DecidableEq

/-- OrderCondition.createClass: the dict lookup
`{1: PriceCondition, 3: TimeCondition, 4: MarginCondition,
5: ExecutionCondition, 6: VolumeCondition, 7: PercentChangeCondition}[condType]`.
Indexing a dict with a missing key raises KeyError; modelled as `none`. -/
def OrderCondition.createClass (condType : ℤ) : Option CondClass :=
  if condType = 1 then some CondClass.price
  else if condType = 3 then some CondClass.time
  else if condType = 4 then some CondClass.margin
  else if condType = 5 then some CondClass.execution
  else if condType = 6 then some CondClass.volume
  else if condType = 7 then some CondClass.percentChange
  else none

/-- Read the `conjunction` field of any condition variant. -/
def OrderCondition.conjOf : OrderCondition → String
  | .price c => c.conjunction
  | .time c => c.conjunction
  | .margin c => c.conjunction
  | .execution c => c.conjunction
  | .volume c => c.conjunction
  | .percentChange c => c.conjunction

/-- The assignment `self.conjunction = s` on any condition variant: update the
`conjunction` field, leaving all other fields unchanged. -/
def OrderCondition.withConj : OrderCondition → String → OrderCondition
  | .price c, s => .price { c with conjunction := s }
  | .time c, s => .time { c with conjunction := s }
  | .margin c, s => .margin { c with conjunction := s }
  | .execution c, s => .execution { c with conjunction := s }
  | .volume c, s => .volume { c with conjunction := s }
  | .percentChange c, s => .percentChange { c with conjunction := s }

/-- A condition instance: a condition value together with its Python object
identity, so that "mutates in place and returns the very same instance" is
expressible. -/
structure ConditionInst where
  id : ℕ
  val : OrderCondition
  deriving Repr, DecidableEq

/-- OrderCondition.And: `self.conjunction = 'a'; return self`. -/
def ConditionInst.And (c : ConditionInst) : ConditionInst :=
  { c with val := c.val.withConj "a" }

/-- OrderCondition.Or: `self.conjunction = 'o'; return self`. -/
def ConditionInst.Or (c : ConditionInst) : ConditionInst :=
  { c with val := c.val.withConj "o" }

/-- Default `condType` of the variant named by a CondClass tag, read off the
variant type's declared defaults. -/
def CondClass.defaultCondType : CondClass → ℤ
  | .price => ({} : PriceCondition).condType
  | .time => ({} : TimeCondition).condType
  | .margin => ({} : MarginCondition).condType
  | .execution => ({} : ExecutionCondition).condType
  | .volume => ({} : VolumeCondition).condType
  | .percentChange => ({} : PercentChangeCondition).condType

/-- Default `conjunction` of the variant named by a CondClass tag, read off
the variant type's declared defaults. -/
def CondClass.defaultConjunction : CondClass → String
  | .price => ({} : PriceCondition).conjunction
  | .time => ({} : TimeCondition).conjunction
  | .margin => ({} : MarginCondition).conjunction
  | .execution => ({} : ExecutionCondition).conjunction
  | .volume => ({} : VolumeCondition).conjunction
  | .percentChange => ({} : PercentChangeCondition).conjunction

/-- OrderStatus: fields and defaults as declared in order.py. -/
structure OrderStatus where
  orderId : ℤ := 0
  status : String := ""
  filled : ℤ := 0
  remaining : ℤ := 0
  avgFillPrice : ℚ := 0
  permId : ℤ := 0
  parentId : ℤ := 0
  lastFillPrice : ℚ := 0
  clientId : ℤ := 0
  whyHeld : String := ""
  mktCapPrice : ℚ := 0
  lastLiquidity : ℤ := 0
  deriving Repr, DecidableEq

/-- OrderStatus.DoneStates = {'Filled', 'Cancelled', 'ApiCancelled'}. -/
def OrderStatus.DoneStates : List String :=
  ["Filled", "Cancelled", "ApiCancelled"]

/-- OrderStatus.ActiveStates =
{'PendingSubmit', 'ApiPending', 'PreSubmitted', 'Submitted'}. -/
def OrderStatus.ActiveStates : List String :=
  ["PendingSubmit", "ApiPending", "PreSubmitted", "Submitted"]

/-- Modelled from the spec: the record base (Object in objects.py, not part
of the given sources) gives generic records field-value equality; this is
that equality for OrderStatus, comparing every field by value. -/
def OrderStatus.eqv (a b : OrderStatus) : Bool :=
  a.orderId == b.orderId && a.status == b.status
    && a.filled == b.filled && a.remaining == b.remaining
    && a.avgFillPrice == b.avgFillPrice && a.permId == b.permId
    && a.parentId == b.parentId && a.lastFillPrice == b.lastFillPrice
    && a.clientId == b.clientId && a.whyHeld == b.whyHeld
    && a.mktCapPrice == b.mktCapPrice && a.lastLiquidity == b.lastLiquidity

/-- Modelled from the spec: TagValue (objects.py, not in the given sources),
a generic (name, value) string pair for broker-specific parameters. -/
structure TagValue where
  tag : String := ""
  value : String := ""
  deriving Repr, DecidableEq

/-- Modelled from the spec: OrderComboLeg (objects.py, not in the given
sources); only its existence matters to this core, so it is reduced to its
price field. -/
structure OrderComboLeg where
  price : ℚ := UNSET_DOUBLE
  deriving Repr, DecidableEq

/-- Modelled from the spec: SoftDollarTier (objects.py, not in the given
sources), a small record whose default-valued instance has empty strings. -/
structure SoftDollarTier where
  name : String := ""
  val : String := ""
  displayName : String := ""
  deriving Repr, DecidableEq

/-- Order: the full field table with the defaults declared in order.py.
Fields typed Optional[...] with default None become Option types with
default `none`; `orderMiscOptions` is Optional[Any] and is modelled with
TagValue payloads. -/
structure Order where
  orderId : ℤ := 0
  clientId : ℤ := 0
  permId : ℤ := 0
  action : String := ""
  totalQuantity : ℚ := 0
  orderType : String := ""
  lmtPrice : ℚ := UNSET_DOUBLE
  auxPrice : ℚ := UNSET_DOUBLE
  tif : String := ""
  activeStartTime : String := ""
  activeStopTime : String := ""
  ocaGroup : String := ""
  ocaType : ℤ := 0
  orderRef : String := ""
  transmit : Bool := true
  parentId : ℤ := 0
  blockOrder : Bool := false
  sweepToFill : Bool := false
  displaySize : ℤ := 0
  triggerMethod : ℤ := 0
  outsideRth : Bool := false
  hidden : Bool := false
  goodAfterTime : String := ""
  goodTillDate : String := ""
  rule80A : String := ""
  allOrNone : Bool := false
  minQty : ℤ := UNSET_INTEGER
  percentOffset : ℚ := UNSET_DOUBLE
  overridePercentageConstraints : Bool := false
  trailStopPrice : ℚ := UNSET_DOUBLE
  trailingPercent : ℚ := UNSET_DOUBLE
  faGroup : String := ""
  faProfile : String := ""
  faMethod : String := ""
  faPercentage : String := ""
  designatedLocation : String := ""
  openClose : String := "O"
  origin : ℤ := 0
  shortSaleSlot : ℤ := 0
  exemptCode : ℤ := -1
  discretionaryAmt : ℤ := 0
  eTradeOnly : Bool := true
  firmQuoteOnly : Bool := true
  nbboPriceCap : ℚ := UNSET_DOUBLE
  optOutSmartRouting : Bool := false
  auctionStrategy : ℤ := 0
  startingPrice : ℚ := UNSET_DOUBLE
  stockRefPrice : ℚ := UNSET_DOUBLE
  delta : ℚ := UNSET_DOUBLE
  stockRangeLower : ℚ := UNSET_DOUBLE
  stockRangeUpper : ℚ := UNSET_DOUBLE
  randomizePrice : Bool := false
  randomizeSize : Bool := false
  volatility : ℚ := UNSET_DOUBLE
  volatilityType : ℤ := UNSET_INTEGER
  deltaNeutralOrderType : String := ""
  deltaNeutralAuxPrice : ℚ := UNSET_DOUBLE
  deltaNeutralConId : ℤ := 0
  deltaNeutralSettlingFirm : String := ""
  deltaNeutralClearingAccount : String := ""
  deltaNeutralClearingIntent : String := ""
  deltaNeutralOpenClose : String := ""
  deltaNeutralShortSale : Bool := false
  deltaNeutralShortSaleSlot : ℤ := 0
  deltaNeutralDesignatedLocation : String := ""
  continuousUpdate : Bool := false
  referencePriceType : ℤ := UNSET_INTEGER
  basisPoints : ℚ := UNSET_DOUBLE
  basisPointsType : ℤ := UNSET_INTEGER
  scaleInitLevelSize : ℤ := UNSET_INTEGER
  scaleSubsLevelSize : ℤ := UNSET_INTEGER
  scalePriceIncrement : ℚ := UNSET_DOUBLE
  scalePriceAdjustValue : ℚ := UNSET_DOUBLE
  scalePriceAdjustInterval : ℤ := UNSET_INTEGER
  scaleProfitOffset : ℚ := UNSET_DOUBLE
  scaleAutoReset : Bool := false
  scaleInitPosition : ℤ := UNSET_INTEGER
  scaleInitFillQty : ℤ := UNSET_INTEGER
  scaleRandomPercent : Bool := false
  scaleTable : String := ""
  hedgeType : String := ""
  hedgeParam : String := ""
  account : String := ""
  settlingFirm : String := ""
  clearingAccount : String := ""
  clearingIntent : String := ""
  algoStrategy : String := ""
  algoParams : Option (List TagValue) := none
  smartComboRoutingParams : Option (List TagValue) := none
  algoId : String := ""
  whatIf : Bool := false
  notHeld : Bool := false
  solicited : Bool := false
  modelCode : String := ""
  orderComboLegs : Option (List OrderComboLeg) := none
  orderMiscOptions : Option (List TagValue) := none
  referenceContractId : ℤ := 0
  peggedChangeAmount : ℚ := 0
  isPeggedChangeAmountDecrease : Bool := false
  referenceChangeAmount : ℚ := 0
  referenceExchangeId : String := ""
  adjustedOrderType : String := ""
  triggerPrice : ℚ := UNSET_DOUBLE
  adjustedStopPrice : ℚ := UNSET_DOUBLE
  adjustedStopLimitPrice : ℚ := UNSET_DOUBLE
  adjustedTrailingAmount : ℚ := UNSET_DOUBLE
  adjustableTrailingUnit : ℤ := 0
  lmtPriceOffset : ℚ := UNSET_DOUBLE
  conditions : Option (List ConditionInst) := none
  conditionsCancelOrder : Bool := false
  conditionsIgnoreRth : Bool := false
  extOperator : String := ""
  softDollarTier : Option SoftDollarTier := none
  cashQty : ℚ := UNSET_DOUBLE
  mifid2DecisionMaker : String := ""
  mifid2DecisionAlgo : String := ""
  mifid2ExecutionTrader : String := ""
  mifid2ExecutionAlgo : String := ""
  dontUseAutoPriceForHedge : Bool := false
  isOmsContainer : Bool := false
  discretionaryUpToLimitPrice : Bool := false
  autoCancelDate : String := ""
  filledQuantity : ℚ := UNSET_DOUBLE
  refFuturesConId : ℤ := 0
  autoCancelParent : Bool := false
  shareholder : String := ""
  imbalanceOnly : Bool := false
  routeMarketableToBbo : Bool := false
  parentPermId : ℤ := 0
  usePriceMgmtAlgo : Bool := false

/-- Python truthiness of the `conditions` field (Optional[List[...]]):
None and the empty list are falsy, a non-empty list is truthy. -/
def Order.conditionsTruthy : Option (List ConditionInst) → Bool
  | none => false
  | some l => !l.isEmpty

/-- Order.__init__ after base field initialization:
`if not self.conditions: self.conditions = []` and
`if not self.softDollarTier: self.softDollarTier = SoftDollarTier()`.
A SoftDollarTier instance is always truthy (the record base defines no
falsiness for instances), so only None is replaced there. -/
def Order.init (o : Order) : Order :=
  let o1 := if Order.conditionsTruthy o.conditions then o
    else { o with conditions := some [] }
  if o1.softDollarTier.isSome then o1
  else { o1 with softDollarTier := some ({} : SoftDollarTier) }

/-- An order instance: an order value together with its Python object
identity, so that the identity-based __eq__/__hash__ of Order is
expressible. -/
structure OrderInst where
  id : ℕ
  order : Order

/-- Order.__eq__: `self is other`, reference identity. -/
def OrderInst.eq (a b : OrderInst) : Bool := a.id == b.id

/-- Order.__hash__: `id(self)`. -/
def OrderInst.hashv (a : OrderInst) : ℕ := a.id

/-- LimitOrder(action, totalQuantity, lmtPrice, **kwargs): forwards to
Order.__init__ with orderType='LMT'; `ov` stands for the extra keyword
overrides, applied to the field record before the __init__ fix-up runs. -/
def LimitOrder (action : String) (totalQuantity lmtPrice : ℚ)
    (ov : Order → Order) : Order :=
  Order.init (ov
    { orderType := "LMT", action := action,
      totalQuantity := totalQuantity, lmtPrice := lmtPrice })

/-- MarketOrder(action, totalQuantity, **kwargs): forwards to Order.__init__
with orderType='MKT'. -/
def MarketOrder (action : String) (totalQuantity : ℚ)
    (ov : Order → Order) : Order :=
  Order.init (ov
    { orderType := "MKT", action := action,
      totalQuantity := totalQuantity })

/-- StopOrder(action, totalQuantity, stopPrice, **kwargs): forwards to
Order.__init__ with orderType='STP' and auxPrice=stopPrice. -/
def StopOrder (action : String) (totalQuantity stopPrice : ℚ)
    (ov : Order → Order) : Order :=
  Order.init (ov
    { orderType := "STP", action := action,
      totalQuantity := totalQuantity, auxPrice := stopPrice })

/-- StopLimitOrder(action, totalQuantity, lmtPrice, stopPrice, **kwargs):
forwards to Order.__init__ with orderType='STP LMT', lmtPrice and
auxPrice=stopPrice. -/
def StopLimitOrder (action : String) (totalQuantity lmtPrice stopPrice : ℚ)
    (ov : Order → Order) : Order :=
  Order.init (ov
    { orderType := "STP LMT", action := action,
      totalQuantity := totalQuantity, lmtPrice := lmtPrice,
      auxPrice := stopPrice })

/-- Modelled from the spec: Contract (contract.py, not in the given
sources); this core consumes only its security type string (`secType`). -/
structure Contract where
  secType : String := ""
  deriving Repr, DecidableEq

/-- Modelled from the spec: the execution record inside a Fill (objects.py,
not in the given sources); this core consumes only its `shares` count. -/
structure Execution where
  shares : ℚ := 0
  deriving Repr, DecidableEq

/-- Modelled from the spec: Fill (objects.py, not in the given sources)
binds a contract and an execution record; the commission report is not
consumed by this core. -/
structure Fill where
  contract : Contract := {}
  execution : Execution := {}
  deriving Repr, DecidableEq

/-- Modelled from the spec: TradeLogEntry (objects.py, not in the given
sources), a timestamped textual audit entry. -/
structure TradeLogEntry where
  time : String := ""
  status : String := ""
  message : String := ""
  deriving Repr, DecidableEq

/-- Trade: binds one contract, one order, one order-status snapshot and the
accumulating fill/log lists.  In the source these fields default to None
and every derived query dereferences them unconditionally, so the embedding
quantifies over trades whose aggregate fields are populated.  The seven
notification Event channels carry no state relevant to any derived query
and are outside the embedding. -/
structure Trade where
  contract : Contract
  order : Order
  orderStatus : OrderStatus
  fills : List Fill
  log : List TradeLogEntry

/-- Trade.isActive: `self.orderStatus.status in OrderStatus.ActiveStates`. -/
def Trade.isActive (t : Trade) : Bool :=
  OrderStatus.ActiveStates.contains t.orderStatus.status

/-- Trade.isDone: `self.orderStatus.status in OrderStatus.DoneStates`. -/
def Trade.isDone (t : Trade) : Bool :=
  OrderStatus.DoneStates.contains t.orderStatus.status

/-- Trade.filled: sum of `f.execution.shares` over the fills, where for a
BAG contract the fills are first filtered to those whose own contract is
BAG-typed (leg fills are not counted). -/
def Trade.filled (t : Trade) : ℚ :=
  let fills := t.fills
  let fills := if t.contract.secType = "BAG"
    then fills.filter (fun f => f.contract.secType == "BAG")
    else fills
  (fills.map (fun f => f.execution.shares)).sum

/-- Trade.remaining: `self.order.totalQuantity - self.filled()`. -/
def Trade.remaining (t : Trade) : ℚ :=
  t.order.totalQuantity - t.filled

/-- A fill with the given contract security type and share count, for
concrete evaluations. -/
def fillOf (sec : String) (sh : ℚ) : Fill :=
  { contract := { secType := sec }, execution := { shares := sh } }

/-- A trade with the given contract security type, order quantity, status
string and fills, for concrete evaluations. -/
def tradeOf (sec : String) (q : ℚ) (st : String) (fs : List Fill) : Trade :=
  { contract := { secType := sec },
    order := Order.init { totalQuantity := q },
    orderStatus := { status := st },
    fills := fs,
    log := [] }

/-- Truthiness of the conditions field forces a populated list. -/
theorem conditionsTruthy_iff (x : Option (List ConditionInst)) :
    Order.conditionsTruthy x = true ↔ ∃ l, x = some l ∧ l ≠ [] := by
  cases x with
  | none => simp [Order.conditionsTruthy]
  | some l => cases l <;> simp [Order.conditionsTruthy]

/-- C1: Trade.filled sums execution.shares over the fills; for a BAG-typed
trade contract only fills whose own contract is BAG-typed are summed, and
for a non-BAG trade contract all fills are summed unfiltered. -/
theorem filled_bag_aggregation :
    (∀ t : Trade, t.contract.secType ≠ "BAG" →
      t.filled = (t.fills.map (fun f => f.execution.shares)).sum) ∧
    (∀ t : Trade, t.contract.secType = "BAG" →
      t.filled = ((t.fills.filter
        (fun f => f.contract.secType == "BAG")).map
          (fun f => f.execution.shares)).sum) := by
  constructor
  · intro t h
    simp [Trade.filled, h]
  · intro t h
    simp [Trade.filled, h]

/-- Witness for C1: a non-BAG trade with fill shares [100, 50, -20] has
filled = 130; a BAG trade with a BAG fill of 75 shares and an STK leg fill
of 40 shares has filled = 75. -/
theorem filled_bag_aggregation_witness :
    Trade.filled (tradeOf "STK" 200 ""
      [fillOf "STK" 100, fillOf "STK" 50, fillOf "STK" (-20)]) = 130 ∧
    Trade.filled (tradeOf "BAG" 200 ""
      [fillOf "BAG" 75, fillOf "STK" 40]) = 75 := by
  constructor
  · rw [filled_bag_aggregation.1 _ (by decide)]
    norm_num +decide [tradeOf, fillOf]
  · rw [filled_bag_aggregation.2 _ rfl]
    norm_num +decide [tradeOf, fillOf]

/-- C2: OrderCondition.createClass maps 1, 3, 4, 5, 6, 7 to the price,
time, margin, execution, volume and percent-change condition types
respectively, and fails (returns none) on every other discriminant. -/
theorem createClass_lookup :
    OrderCondition.createClass 1 = some CondClass.price ∧
    OrderCondition.createClass 3 = some CondClass.time ∧
    OrderCondition.createClass 4 = some CondClass.margin ∧
    OrderCondition.createClass 5 = some CondClass.execution ∧
    OrderCondition.createClass 6 = some CondClass.volume ∧
    OrderCondition.createClass 7 = some CondClass.percentChange ∧
    ∀ d : ℤ, d ≠ 1 → d ≠ 3 → d ≠ 4 → d ≠ 5 → d ≠ 6 → d ≠ 7 →
      OrderCondition.createClass d = none := by
  refine ⟨rfl, rfl, rfl, rfl, rfl, rfl, ?_⟩
  intro d h1 h3 h4 h5 h6 h7
  simp [OrderCondition.createClass, h1, h3, h4, h5, h6, h7]

/-- Witness for C2: discriminant 2 is rejected. -/
theorem createClass_lookup_witness :
    OrderCondition.createClass 2 = none :=
  createClass_lookup.2.2.2.2.2.2 2 (by decide) (by decide) (by decide)
    (by decide) (by decide) (by decide)

/-- C3: Trade.isActive holds exactly on the four active statuses,
Trade.isDone exactly on the three done statuses, and for the statuses
PendingCancel and Inactive both predicates are false. -/
theorem isActive_isDone_states :
    (∀ t : Trade, t.isActive = true ↔
      t.orderStatus.status ∈
        ["PendingSubmit", "ApiPending", "PreSubmitted", "Submitted"]) ∧
    (∀ t : Trade, t.isDone = true ↔
      t.orderStatus.status ∈ ["Filled", "Cancelled", "ApiCancelled"]) ∧
    (∀ t : Trade,
      t.orderStatus.status = "PendingCancel" ∨
        t.orderStatus.status = "Inactive" →
      t.isActive = false ∧ t.isDone = false) := by
  refine ⟨?_, ?_, ?_⟩
  · intro t
    simp [Trade.isActive, OrderStatus.ActiveStates]
  · intro t
    simp [Trade.isDone, OrderStatus.DoneStates]
  · intro t h
    rcases h with h | h <;>
      simp [Trade.isActive, Trade.isDone, OrderStatus.ActiveStates,
        OrderStatus.DoneStates, h]

/-- Witness for C3: a trade whose status is PendingCancel is neither
active nor done. -/
theorem isActive_isDone_states_witness :
    Trade.isActive (tradeOf "STK" 0 "PendingCancel" []) = false ∧
    Trade.isDone (tradeOf "STK" 0 "PendingCancel" []) = false :=
  isActive_isDone_states.2.2 (tradeOf "STK" 0 "PendingCancel" [])
    (Or.inl rfl)

/-- C4: Trade.remaining is order.totalQuantity minus filled, with no
clamping: when filled exceeds totalQuantity the result is negative. -/
theorem remaining_unclamped :
    (∀ t : Trade, t.remaining = t.order.totalQuantity - t.filled) ∧
    (∀ t : Trade, t.order.totalQuantity < t.filled → t.remaining < 0) := by
  refine ⟨fun t => rfl, fun t h => ?_⟩
  have : t.remaining = t.order.totalQuantity - t.filled := rfl
  rw [this]
  linarith

/-- Witness for C4: totalQuantity 200 with a 250-share fill gives
remaining = -50, which is negative. -/
theorem remaining_unclamped_witness :
    Trade.remaining (tradeOf "STK" 200 "" [fillOf "STK" 250]) = -50 ∧
    Trade.remaining (tradeOf "STK" 200 "" [fillOf "STK" 250]) < 0 := by
  refine ⟨?_, remaining_unclamped.2 _ ?_⟩ <;>
    norm_num +decide [Trade.remaining, Trade.filled, tradeOf, fillOf,
      Order.init, Order.conditionsTruthy]

/-- C5: after Order construction the conditions field is never none (an
empty list is substituted when no truthy value was supplied) and the
softDollarTier field is never none (a default-valued SoftDollarTier is
substituted when none was supplied); truthy supplied values are kept. -/
theorem order_init_fixups :
    (∀ o : Order, (Order.init o).conditions ≠ none ∧
      (Order.init o).softDollarTier ≠ none) ∧
    (∀ o : Order, Order.conditionsTruthy o.conditions = false →
      (Order.init o).conditions = some []) ∧
    (∀ o : Order, o.softDollarTier = none →
      (Order.init o).softDollarTier = some ({} : SoftDollarTier)) ∧
    (∀ o : Order, Order.conditionsTruthy o.conditions = true →
      (Order.init o).conditions = o.conditions) ∧
    (∀ o : Order, o.softDollarTier ≠ none →
      (Order.init o).softDollarTier = o.softDollarTier) := by
  have hc : ∀ o : Order, (Order.init o).conditions =
      if Order.conditionsTruthy o.conditions then o.conditions
      else some [] := by
    intro o
    unfold Order.init
    by_cases h1 : Order.conditionsTruthy o.conditions = true <;>
      by_cases h2 : o.softDollarTier.isSome = true <;>
        simp [h1, h2]
  have hs : ∀ o : Order, (Order.init o).softDollarTier =
      if o.softDollarTier.isSome then o.softDollarTier
      else some ({} : SoftDollarTier) := by
    intro o
    unfold Order.init
    by_cases h1 : Order.conditionsTruthy o.conditions = true <;>
      by_cases h2 : o.softDollarTier.isSome = true <;>
        simp [h1, h2]
  refine ⟨fun o => ⟨?_, ?_⟩, fun o h => ?_, fun o h => ?_,
    fun o h => ?_, fun o h => ?_⟩
  · rw [hc o]
    split
    · next h =>
        rcases (conditionsTruthy_iff o.conditions).mp h with ⟨l, hl, -⟩
        simp [hl]
    · simp
  · rw [hs o]
    split
    · next h => exact Option.isSome_iff_ne_none.mp h
    · simp
  · rw [hc o, h]
    simp
  · rw [hs o, h]
    simp
  · rw [hc o, h]
    simp
  · rw [hs o, Option.isSome_iff_ne_none.mpr h]
    simp

/-- Witness for C5: a default-constructed Order gets an empty conditions
list and a default SoftDollarTier. -/
theorem order_init_fixups_witness :
    (Order.init {}).conditions = some [] ∧
    (Order.init {}).softDollarTier = some ({} : SoftDollarTier) :=
  ⟨order_init_fixups.2.1 {} rfl, order_init_fixups.2.2.1 {} rfl⟩

/-- C6: the four convenience constructors fix orderType and map their
positional arguments onto action, totalQuantity, lmtPrice and auxPrice,
and each forwards any extra overrides to the general constructor
unchanged. -/
theorem convenience_constructors :
    (∀ (a : String) (q p : ℚ),
      (LimitOrder a q p id).orderType = "LMT" ∧
      (LimitOrder a q p id).action = a ∧
      (LimitOrder a q p id).totalQuantity = q ∧
      (LimitOrder a q p id).lmtPrice = p) ∧
    (∀ (a : String) (q : ℚ),
      (MarketOrder a q id).orderType = "MKT" ∧
      (MarketOrder a q id).action = a ∧
      (MarketOrder a q id).totalQuantity = q) ∧
    (∀ (a : String) (q s : ℚ),
      (StopOrder a q s id).orderType = "STP" ∧
      (StopOrder a q s id).action = a ∧
      (StopOrder a q s id).totalQuantity = q ∧
      (StopOrder a q s id).auxPrice = s) ∧
    (∀ (a : String) (q p s : ℚ),
      (StopLimitOrder a q p s id).orderType = "STP LMT" ∧
      (StopLimitOrder a q p s id).action = a ∧
      (StopLimitOrder a q p s id).totalQuantity = q ∧
      (StopLimitOrder a q p s id).lmtPrice = p ∧
      (StopLimitOrder a q p s id).auxPrice = s) ∧
    (∀ (a : String) (q p : ℚ) (ov : Order → Order),
      LimitOrder a q p ov = Order.init (ov
        { orderType := "LMT", action := a, totalQuantity := q,
          lmtPrice := p })) ∧
    (∀ (a : String) (q : ℚ) (ov : Order → Order),
      MarketOrder a q ov = Order.init (ov
        { orderType := "MKT", action := a, totalQuantity := q })) ∧
    (∀ (a : String) (q s : ℚ) (ov : Order → Order),
      StopOrder a q s ov = Order.init (ov
        { orderType := "STP", action := a, totalQuantity := q,
          auxPrice := s })) ∧
    (∀ (a : String) (q p s : ℚ) (ov : Order → Order),
      StopLimitOrder a q p s ov = Order.init (ov
        { orderType := "STP LMT", action := a, totalQuantity := q,
          lmtPrice := p, auxPrice := s })) :=
  ⟨fun _ _ _ => ⟨rfl, rfl, rfl, rfl⟩,
   fun _ _ => ⟨rfl, rfl, rfl⟩,
   fun _ _ _ => ⟨rfl, rfl, rfl, rfl⟩,
   fun _ _ _ _ => ⟨rfl, rfl, rfl, rfl, rfl⟩,
   fun _ _ _ _ => rfl, fun _ _ _ => rfl,
   fun _ _ _ _ => rfl, fun _ _ _ _ _ => rfl⟩

/-- C7: Order equality is reference identity (distinct instances are
unequal whatever their fields, an instance equals itself, and the hash is
consistent with that identity), while OrderStatus equality is field-value
equality. -/
theorem order_identity_equality :
    (∀ a b : OrderInst, a.id ≠ b.id → OrderInst.eq a b = false) ∧
    (∀ a : OrderInst, OrderInst.eq a a = true) ∧
    (∀ a b : OrderInst, OrderInst.eq a b = true →
      OrderInst.hashv a = OrderInst.hashv b) ∧
    (∀ s u : OrderStatus, OrderStatus.eqv s u = true ↔ s = u) := by
  refine ⟨fun a b h => ?_, fun a => ?_, fun a b h => ?_, fun s u => ?_⟩
  · simpa [OrderInst.eq] using h
  · simp [OrderInst.eq]
  · simp only [OrderInst.eq, beq_iff_eq] at h
    simp [OrderInst.hashv, h]
  · cases s
    cases u
    simp [OrderStatus.eqv, OrderStatus.mk.injEq]
    tauto

/-- Witness for C7: two distinct instances holding identical
default-valued orders compare unequal, while two identically-valued
OrderStatus records compare equal. -/
theorem order_identity_equality_witness :
    OrderInst.eq ⟨0, {}⟩ ⟨1, {}⟩ = false ∧
    OrderStatus.eqv {} {} = true :=
  ⟨order_identity_equality.1 ⟨0, {}⟩ ⟨1, {}⟩ (by decide),
   (order_identity_equality.2.2.2 {} {}).mpr rfl⟩

/-- C8: And sets conjunction to 'a' and Or sets it to 'o', each returning
the same instance (identity preserved) and leaving every other field
unchanged (restoring the old conjunction restores the old value). -/
theorem and_or_mutators :
    ∀ c : ConditionInst,
      c.And.id = c.id ∧ c.And.val.conjOf = "a" ∧
      c.And.val.withConj c.val.conjOf = c.val ∧
      c.Or.id = c.id ∧ c.Or.val.conjOf = "o" ∧
      c.Or.val.withConj c.val.conjOf = c.val := by
  rintro ⟨i, v⟩
  cases v <;>
    simp [ConditionInst.And, ConditionInst.Or, OrderCondition.withConj,
      OrderCondition.conjOf]

/-- C9: decoding any discriminant accepted by createClass yields a variant
type whose declared default condType is that same discriminant, and every
variant type declares default conjunction 'a'. -/
theorem createClass_default_condType :
    (∀ (d : ℤ) (c : CondClass), OrderCondition.createClass d = some c →
      c.defaultCondType = d) ∧
    (∀ c : CondClass, c.defaultConjunction = "a") := by
  constructor
  · intro d c h
    unfold OrderCondition.createClass at h
    split_ifs at h with h1 h3 h4 h5 h6 h7
    · injection h with h
      subst h
      subst h1
      rfl
    · injection h with h
      subst h
      subst h3
      rfl
    · injection h with h
      subst h
      subst h4
      rfl
    · injection h with h
      subst h
      subst h5
      rfl
    · injection h with h
      subst h
      subst h6
      rfl
    · injection h with h
      subst h
      subst h7
      rfl
  · intro c
    cases c <;> rfl

/-- Witness for C9: discriminant 1 decodes to the price condition type,
whose default condType is 1. -/
theorem createClass_default_condType_witness :
    CondClass.defaultCondType CondClass.price = 1 :=
  createClass_default_condType.1 1 CondClass.price rfl

/-- C10: a MarketOrder built without overrides leaves lmtPrice and
auxPrice at the UNSET_DOUBLE sentinel; a StopOrder built without
overrides leaves lmtPrice at UNSET_DOUBLE and sets only auxPrice; the
sentinel is distinct from zero. -/
theorem market_stop_preserve_unset :
    (∀ (a : String) (q : ℚ),
      (MarketOrder a q id).lmtPrice = UNSET_DOUBLE ∧
      (MarketOrder a q id).auxPrice = UNSET_DOUBLE) ∧
    (∀ (a : String) (q s : ℚ),
      (StopOrder a q s id).lmtPrice = UNSET_DOUBLE ∧
      (StopOrder a q s id).auxPrice = s) ∧
    UNSET_DOUBLE ≠ 0 := by
  refine ⟨fun a q => ⟨rfl, rfl⟩, fun a q s => ⟨rfl, rfl⟩, ?_⟩
  norm_num [UNSET_DOUBLE]

end IbInsync
